import Mathlib

/-!
Verification of the `mcr` RCON client (Go).

The development shallowly embeds the packet codec and the session logic of
the `mcr` package: byte streams are `List Nat` (each entry a byte value),
Go `int32` values are `Int` with explicit wrapping modulo `2^32`, and the
TCP transport is modelled by explicit per-call environment records that say
whether a write succeeds and which bytes arrive for a read.
-/

set_option maxRecDepth 4000

/-- Interpretation of a 32-bit unsigned bit pattern as a signed int32 value. -/
def toSigned32 (u : Nat) : Int :=
  if u < 2147483648 then (u : Int) else (u : Int) - 4294967296

/-- Wrapping of an unbounded integer into the int32 range, as Go's two's
complement arithmetic does on overflow. -/
def wrap32 (x : Int) : Int :=
  toSigned32 (x % 4294967296).toNat

/-- Little-endian 4-byte encoding of an int32 value, as written by
`binary.Write(&buffer, binary.LittleEndian, int32(v))`. -/
def int32LE (v : Int) : List Nat :=
  [(v % 4294967296).toNat % 256,
   (v % 4294967296).toNat / 256 % 256,
   (v % 4294967296).toNat / 65536 % 256,
   (v % 4294967296).toNat / 16777216 % 256]

/-- Reassembly of 4 little-endian bytes into an unsigned value. -/
def fromLEu : List Nat → Nat
  | [b0, b1, b2, b3] => b0 + 256 * b1 + 65536 * b2 + 16777216 * b3
  | _ => 0

/-- Signed int32 read of 4 little-endian bytes, as done by `binary.Read`
into an `int32` field. -/
def readI32 (bs : List Nat) : Int :=
  toSigned32 (fromLEu bs % 4294967296)

theorem int32LE_length (v : Int) : (int32LE v).length = 4 := rfl

theorem wrap32_eq_self {x : Int} (h1 : -2147483648 ≤ x) (h2 : x < 2147483648) :
    wrap32 x = x := by
  unfold wrap32 toSigned32
  have hlt : x % 4294967296 < 4294967296 := Int.emod_lt_of_pos x (by norm_num)
  have hge : 0 ≤ x % 4294967296 := Int.emod_nonneg x (by norm_num)
  have hmod : x % 4294967296 = x ∨ x % 4294967296 = x + 4294967296 := by
    omega
  rcases hmod with h | h <;> split <;> omega

theorem readI32_int32LE (v : Int) : readI32 (int32LE v) = wrap32 v := by
  unfold readI32 int32LE wrap32
  have hlt : v % 4294967296 < 4294967296 := Int.emod_lt_of_pos v (by norm_num)
  have hge : 0 ≤ v % 4294967296 := Int.emod_nonneg v (by norm_num)
  have hu : (v % 4294967296).toNat < 4294967296 := by omega
  have hdig : (v % 4294967296).toNat % 256 + 256 * ((v % 4294967296).toNat / 256 % 256)
      + 65536 * ((v % 4294967296).toNat / 65536 % 256)
      + 16777216 * ((v % 4294967296).toNat / 16777216 % 256)
      = (v % 4294967296).toNat := by
    omega
  simp only [fromLEu]
  rw [hdig, Nat.mod_eq_of_lt hu]

theorem take_len_append {α : Type} (l r : List α) : (l ++ r).take l.length = l := by
  induction l with
  | nil => simp
  | cons a t ih => simp [List.take, ih]

theorem drop_len_append {α : Type} (l r : List α) : (l ++ r).drop l.length = r := by
  induction l with
  | nil => simp
  | cons a t ih => simp [List.drop, ih]

theorem int32LE_append_take (v : Int) (r : List Nat) :
    (int32LE v ++ r).take 4 = int32LE v := by
  have h := take_len_append (int32LE v) r
  rwa [int32LE_length] at h

theorem int32LE_append_drop (v : Int) (r : List Nat) :
    (int32LE v ++ r).drop 4 = r := by
  have h := drop_len_append (int32LE v) r
  rwa [int32LE_length] at h

/-! ## Data model (from `src/mcr.go`) -/

/-- Packet-type and request-id constants from the `const` block of `mcr.go`. -/
def FailurePacket : Int := -1

def CommandPacket : Int := 2

def AuthPacket : Int := 3

def ResetID : Int := 1

def DefaultCap : Int := 100

def DefaultPort : Int := 61695

/-- `DefaultTimeout = time.Second * 10`, in nanoseconds. -/
def DefaultTimeout : Int := 10000000000

def PacketRequestSize : Nat := 10

def PacketPaddingSize : Nat := 2

/-- An attached transport handle (`net.Conn`). Only its identity matters to
the session logic; reads and writes are modelled by per-call environments. -/
structure Conn where
  id : Nat
  deriving DecidableEq

/-- The `response` struct returned to the caller: decoded request id, packet
type and body bytes. -/
structure Response where
  requestID : Int
  ty : Int
  body : List Nat
  deriving DecidableEq

/-- Result of the receive half of `sendAndRecv`: a decoded response, a
transport read error, or a Go runtime panic. -/
inductive RecvResult where
  | ok (r : Response)
  | transportError
  | panicked
  deriving DecidableEq

/-- The error conditions surfaced by the client. -/
inductive Err where
  | notConnected
  | transport
  | authFailed
  | dialFailed
  | intOverflow
  deriving DecidableEq

/-- Result of a client operation: a value, an error return, or a runtime
panic escaping the operation. -/
inductive Outcome (α : Type) where
  | ok (a : α)
  | err (e : Err)
  | panicked
  deriving DecidableEq

/-- Observable transport actions performed by an operation. -/
inductive NetEvent where
  | write (bytes : List Nat)
  | read
  | close
  deriving DecidableEq

/-- Per-exchange transport behaviour: whether the `Write` call succeeds and
which bytes the server has made available for the subsequent reads. -/
structure ExchEnv where
  writeOk : Bool
  incoming : List Nat
  deriving DecidableEq

/-- Per-`Connect` transport behaviour: the dial result plus the exchange
environment for the authentication round trip. -/
structure ConnectEnv where
  dial : Option Conn
  exch : ExchEnv
  deriving DecidableEq

/-- The `Client` struct of `mcr.go`. -/
structure Client where
  connection : Option Conn
  requestID : Int
  address : String
  port : Int
  timeout : Int
  cap : Int
  deriving DecidableEq

/-- The options of the current `option.go` revision (`WithTimeout`,
`WithCap`). -/
inductive ClientOption where
  | withTimeout (t : Int)
  | withCap (c : Int)
  deriving DecidableEq

def applyOption (c : Client) : ClientOption → Client
  | .withTimeout t => { c with timeout := t }
  | .withCap k => { c with cap := k }

/-- `NewClient`: builds the client with the default configuration, then
applies the supplied options. -/
def NewClient (addr : String) (opts : List ClientOption) : Client :=
  opts.foldl applyOption
    { connection := none
      requestID := ResetID
      address := addr
      port := DefaultPort
      timeout := DefaultTimeout
      cap := DefaultCap }

/-! ## Packet codec (from `src/mcr.go`) -/

/-- `createPacket`: length field `len(body) + PacketRequestSize` truncated to
int32, then request id, packet type, body and 2 zero padding bytes, all
little-endian. `binary.Write` to a `bytes.Buffer` cannot fail, so the
function is total in this revision. -/
def Client.createPacket (c : Client) (body : List Nat) (packetType : Int) : List Nat :=
  int32LE ((body.length : Int) + (PacketRequestSize : Int)) ++
    int32LE c.requestID ++ int32LE packetType ++ body ++ [0, 0]

/-- The receive half of `sendAndRecv`: read a 12-byte little-endian header
`(Size, RequestID, Type)`, allocate `Size - PacketHeaderSize` payload bytes
(int32 subtraction; a negative count makes `make` panic), read exactly that
many bytes, then strip the final 2 padding bytes with `payload[:len(payload)-2]`
(an out-of-range slice panics). Short reads are transport errors. -/
def parseRecv (stream : List Nat) : RecvResult :=
  if stream.length < 12 then RecvResult.transportError
  else if wrap32 (readI32 (stream.take 4) - 8) < 0 then RecvResult.panicked
  else if (stream.drop 12).length < (wrap32 (readI32 (stream.take 4) - 8)).toNat then
    RecvResult.transportError
  else if (wrap32 (readI32 (stream.take 4) - 8)).toNat < 2 then RecvResult.panicked
  else
    RecvResult.ok
      { requestID := readI32 ((stream.drop 4).take 4)
        ty := readI32 ((stream.drop 8).take 4)
        body := ((stream.drop 12).take (wrap32 (readI32 (stream.take 4) - 8)).toNat).take
            ((wrap32 (readI32 (stream.take 4) - 8)).toNat - 2) }

/-! ## Session (from `src/mcr.go`) -/

/-- `incrementRequestID`: `c.requestID++` (int32, hence wrapping), then reset
to `ResetID` once the counter exceeds `c.cap`. -/
def Client.incrementRequestID (c : Client) : Client :=
  if wrap32 (c.requestID + 1) > c.cap then { c with requestID := ResetID }
  else { c with requestID := wrap32 (c.requestID + 1) }

/-- `sendAndRecv`: write the packet, then read and decode the response; the
request id is incremented only after the response has been fully read and
unpadded. The state is returned alongside the outcome and the transport
events performed. -/
def Client.sendAndRecv (c : Client) (env : ExchEnv) (packet : List Nat) :
    Outcome Response × Client × List NetEvent :=
  if env.writeOk then
    match parseRecv env.incoming with
    | RecvResult.ok r => (Outcome.ok r, c.incrementRequestID, [NetEvent.write packet, NetEvent.read])
    | RecvResult.transportError => (Outcome.err Err.transport, c, [NetEvent.write packet, NetEvent.read])
    | RecvResult.panicked => (Outcome.panicked, c, [NetEvent.write packet, NetEvent.read])
  else (Outcome.err Err.transport, c, [NetEvent.write packet])

/-- `send`: write the packet without reading a reply; the request id is
incremented after a successful write. -/
def Client.send (c : Client) (env : ExchEnv) (packet : List Nat) :
    Outcome Unit × Client × List NetEvent :=
  if env.writeOk then (Outcome.ok (), c.incrementRequestID, [NetEvent.write packet])
  else (Outcome.err Err.transport, c, [NetEvent.write packet])

/-- `Command`: fail with the not-connected error when no transport is
attached, otherwise build a type-2 packet, exchange it, and return the
response body. -/
def Client.Command (c : Client) (env : ExchEnv) (cmd : List Nat) :
    Outcome (List Nat) × Client × List NetEvent :=
  match c.connection with
  | none => (Outcome.err Err.notConnected, c, [])
  | some _ =>
    match c.sendAndRecv env (c.createPacket cmd CommandPacket) with
    | (Outcome.ok r, c1, tr) => (Outcome.ok r.body, c1, tr)
    | (Outcome.err e, c1, tr) => (Outcome.err e, c1, tr)
    | (Outcome.panicked, c1, tr) => (Outcome.panicked, c1, tr)

/-- `Send`: fail with the not-connected error when no transport is attached,
otherwise build a type-2 packet and write it without reading a reply. -/
def Client.Send (c : Client) (env : ExchEnv) (cmd : List Nat) :
    Outcome Unit × Client × List NetEvent :=
  match c.connection with
  | none => (Outcome.err Err.notConnected, c, [])
  | some _ => c.send env (c.createPacket cmd CommandPacket)

/-- `authenticate`: exchange a type-3 packet carrying the password; a decoded
`RequestID` equal to `FailurePacket` (-1) is an authentication failure. -/
def Client.authenticate (c : Client) (env : ExchEnv) (password : List Nat) :
    Outcome Unit × Client × List NetEvent :=
  match c.sendAndRecv env (c.createPacket password AuthPacket) with
  | (Outcome.ok r, c1, tr) =>
    if r.requestID = FailurePacket then (Outcome.err Err.authFailed, c1, tr)
    else (Outcome.ok (), c1, tr)
  | (Outcome.err e, c1, tr) => (Outcome.err e, c1, tr)
  | (Outcome.panicked, c1, tr) => (Outcome.panicked, c1, tr)

/-- `Connect`: dial only when no transport is attached (an attached transport
is reused), then authenticate. -/
def Client.Connect (c : Client) (env : ConnectEnv) (password : List Nat) :
    Outcome Unit × Client × List NetEvent :=
  match c.connection with
  | some _ => c.authenticate env.exch password
  | none =>
    match env.dial with
    | none => (Outcome.err Err.dialFailed, c, [])
    | some conn => Client.authenticate { c with connection := some conn } env.exch password

/-- `Close`: reset the request id unconditionally; when a transport is
attached, close it and clear the reference only when the close succeeds. -/
def Client.Close (c : Client) (closeOk : Bool) :
    Outcome Unit × Client × List NetEvent :=
  match c.connection with
  | none => (Outcome.ok (), { c with requestID := ResetID }, [])
  | some _ =>
    if closeOk then
      (Outcome.ok (), { c with requestID := ResetID, connection := none }, [NetEvent.close])
    else (Outcome.err Err.transport, { c with requestID := ResetID }, [NetEvent.close])

/-! ## The `part_004` revision of the codec (with `safeIntConversion`) -/

namespace P4

/-- `safeIntConversion` of the `part_004` revision: reject values outside the
signed 32-bit range before converting. -/
def safeIntConversion (n : Int) : Except Err Int :=
  if n > 2147483647 ∨ n < -2147483648 then Except.error Err.intOverflow
  else Except.ok n

/-- `createPacket` of the `part_004` revision: validate
`len(body) + PacketRequestSize` through `safeIntConversion` before any bytes
are constructed; on success the layout is identical to the other revisions. -/
def createPacket (requestID : Int) (body : List Nat) (packetType : Int) :
    Except Err (List Nat) :=
  match safeIntConversion ((body.length : Int) + (PacketRequestSize : Int)) with
  | Except.error e => Except.error e
  | Except.ok length =>
    Except.ok (int32LE length ++ int32LE requestID ++ int32LE packetType ++ body ++ [0, 0])

end P4

/-! ## Operation sequences over a session -/

/-- One public operation together with the transport behaviour it meets. -/
inductive Op where
  | connect (env : ConnectEnv) (password : List Nat)
  | command (env : ExchEnv) (cmd : List Nat)
  | send (env : ExchEnv) (cmd : List Nat)
  | close (closeOk : Bool)

/-- The state reached after one public operation. -/
def Client.step (c : Client) : Op → Client
  | Op.connect env pwd => (c.Connect env pwd).2.1
  | Op.command env cmd => (c.Command env cmd).2.1
  | Op.send env cmd => (c.Send env cmd).2.1
  | Op.close ok => (c.Close ok).2.1

/-- The state reached after a sequence of public operations. -/
def runOps (c : Client) (ops : List Op) : Client :=
  ops.foldl Client.step c


/-! ## Helper lemmas about frame parsing -/

theorem frame_length (a b c : Int) (r : List Nat) :
    (int32LE a ++ (int32LE b ++ (int32LE c ++ r))).length = 12 + r.length := by
  simp [int32LE]
  omega

theorem frame_drop8 (a b c : Int) (r : List Nat) :
    (int32LE a ++ (int32LE b ++ (int32LE c ++ r))).drop 8 = int32LE c ++ r := by
  have h : (int32LE a ++ (int32LE b ++ (int32LE c ++ r))).drop 8 =
      ((int32LE a ++ (int32LE b ++ (int32LE c ++ r))).drop 4).drop 4 := by
    rw [List.drop_drop]
  rw [h, int32LE_append_drop, int32LE_append_drop]

theorem frame_drop12 (a b c : Int) (r : List Nat) :
    (int32LE a ++ (int32LE b ++ (int32LE c ++ r))).drop 12 = r := by
  have h : (int32LE a ++ (int32LE b ++ (int32LE c ++ r))).drop 12 =
      ((int32LE a ++ (int32LE b ++ (int32LE c ++ r))).drop 8).drop 4 := by
    rw [List.drop_drop]
  rw [h, frame_drop8, int32LE_append_drop]

/-- Parsing a stream that begins with a well-formed 12-byte header reduces to
the payload checks of `sendAndRecv`. -/
theorem parseRecv_header (size reqid typ : Int) (rest : List Nat)
    (h1 : -2147483648 ≤ size) (h2 : size < 2147483648) :
    parseRecv (int32LE size ++ (int32LE reqid ++ (int32LE typ ++ rest))) =
      (if wrap32 (size - 8) < 0 then RecvResult.panicked
       else if rest.length < (wrap32 (size - 8)).toNat then RecvResult.transportError
       else if (wrap32 (size - 8)).toNat < 2 then RecvResult.panicked
       else RecvResult.ok
         { requestID := wrap32 reqid
           ty := wrap32 typ
           body := (rest.take (wrap32 (size - 8)).toNat).take
               ((wrap32 (size - 8)).toNat - 2) }) := by
  unfold parseRecv
  rw [frame_length, frame_drop8, frame_drop12, int32LE_append_take,
    int32LE_append_drop, int32LE_append_take, int32LE_append_take,
    readI32_int32LE, readI32_int32LE, readI32_int32LE,
    wrap32_eq_self h1 h2]
  simp


/-- A connected-less client with `requestID = 1` and the default
configuration, used to instantiate concrete scenarios. -/
def listClient : Client :=
  { connection := none, requestID := 1, address := "a", port := 61695,
    timeout := 10000000000, cap := 100 }

/-- C1: encoding any body with `createPacket` and decoding the bytes with the
`sendAndRecv` parsing logic (12-byte little-endian header, `Size - 8` payload
bytes, trailing 2 padding bytes stripped) recovers the body exactly, whenever
`len(body) + 10` fits in a signed int32. -/
theorem c1_createPacket_parse_roundtrip (c : Client) (body : List Nat) (packetType : Int)
    (hbytes : ∀ b ∈ body, b < 256)
    (hlen : body.length + 10 ≤ 2147483647) :
    parseRecv (c.createPacket body packetType) =
      RecvResult.ok
        { requestID := wrap32 c.requestID, ty := wrap32 packetType, body := body } := by
  have hL1 : (-2147483648 : Int) ≤ (body.length : Int) + (PacketRequestSize : Int) := by
    unfold PacketRequestSize; push_cast; omega
  have hL2 : (body.length : Int) + (PacketRequestSize : Int) < 2147483648 := by
    unfold PacketRequestSize; push_cast; omega
  unfold Client.createPacket
  simp only [List.append_assoc]
  rw [parseRecv_header _ _ _ _ hL1 hL2]
  have harg : (body.length : Int) + (PacketRequestSize : Int) - 8 = (body.length : Int) + 2 := by
    unfold PacketRequestSize; push_cast; ring
  rw [harg, wrap32_eq_self (by omega) (by push_cast; omega)]
  have htn : ((body.length : Int) + 2).toNat = body.length + 2 := by omega
  rw [htn]
  have h1 : ¬ ((body.length : Int) + 2 < 0) := by omega
  have h2 : ¬ ((body ++ [0, 0]).length < body.length + 2) := by simp
  have h3 : ¬ (body.length + 2 < 2) := by omega
  rw [if_neg h1, if_neg h2, if_neg h3]
  have hwhole : (body ++ [0, 0]).take (body.length + 2) = body ++ [0, 0] := by
    have hlen2 : (body ++ [0, 0]).length = body.length + 2 := by simp
    rw [← hlen2, List.take_length]
  have hstrip : body.length + 2 - 2 = body.length := by omega
  rw [hwhole, hstrip, take_len_append]

/-- Witness for C1 at the concrete scenario body `"list"`, type 2, id 1. -/
theorem c1_createPacket_parse_roundtrip_witness :
    (∀ b ∈ ([108, 105, 115, 116] : List Nat), b < 256) ∧
    ([108, 105, 115, 116] : List Nat).length + 10 ≤ 2147483647 ∧
    parseRecv (listClient.createPacket [108, 105, 115, 116] CommandPacket) =
      RecvResult.ok
        { requestID := wrap32 listClient.requestID, ty := wrap32 CommandPacket,
          body := [108, 105, 115, 116] } :=
  ⟨by decide, by decide,
    c1_createPacket_parse_roundtrip listClient [108, 105, 115, 116] CommandPacket
      (by decide) (by decide)⟩

theorem incrementRequestID_connection (c : Client) :
    (c.incrementRequestID).connection = c.connection := by
  unfold Client.incrementRequestID
  split <;> rfl

theorem incrementRequestID_cap (c : Client) :
    (c.incrementRequestID).cap = c.cap := by
  unfold Client.incrementRequestID
  split <;> rfl

/-- C9: encoding the body `"list"` (bytes `6C 69 73 74`) as a type-2 command
packet with request id 1 yields exactly
`0E 00 00 00 01 00 00 00 02 00 00 00 6C 69 73 74 00 00`. -/
theorem c9_list_packet_bytes :
    listClient.createPacket [108, 105, 115, 116] CommandPacket =
      [14, 0, 0, 0, 1, 0, 0, 0, 2, 0, 0, 0, 108, 105, 115, 116, 0, 0] := by decide

/-- C4 counterexample: a client whose only `Connect` attempt dialed
successfully but failed authentication has never had a successful `Connect`,
yet the dialed transport remains attached (`Connect` attaches it before
authenticating), so a subsequent `Command` does not fail with the
not-connected error and performs transport I/O — contrary to the claim as
stated for every client on which `Connect` has never succeeded. -/
theorem c4_connect_never_succeeded_counterexample :
    ((NewClient "a" []).Connect
        ⟨some ⟨0⟩, true, [10, 0, 0, 0, 255, 255, 255, 255, 2, 0, 0, 0, 0, 0]⟩ [112]).1 =
      Outcome.err Err.authFailed ∧
    (((NewClient "a" []).Connect
        ⟨some ⟨0⟩, true, [10, 0, 0, 0, 255, 255, 255, 255, 2, 0, 0, 0, 0, 0]⟩ [112]).2.1.Command
        ⟨true, []⟩ [97]).1 = Outcome.err Err.transport ∧
    (((NewClient "a" []).Connect
        ⟨some ⟨0⟩, true, [10, 0, 0, 0, 255, 255, 255, 255, 2, 0, 0, 0, 0, 0]⟩ [112]).2.1.Command
        ⟨true, []⟩ [97]).1 ≠ Outcome.err Err.notConnected ∧
    (((NewClient "a" []).Connect
        ⟨some ⟨0⟩, true, [10, 0, 0, 0, 255, 255, 255, 255, 2, 0, 0, 0, 0, 0]⟩ [112]).2.1.Command
        ⟨true, []⟩ [97]).2.2 ≠ [] := by decide

/-- C4 amended: with no transport attached (the transport was never attached
because no dial ever succeeded, or `Close` has cleared it since), `Command`
and `Send` fail immediately with the not-connected error, change no state,
and perform no transport actions. -/
theorem c4_not_connected (c : Client) (env : ExchEnv) (cmd : List Nat)
    (h : c.connection = none) :
    c.Command env cmd = (Outcome.err Err.notConnected, c, []) ∧
    c.Send env cmd = (Outcome.err Err.notConnected, c, []) := by
  unfold Client.Command Client.Send
  rw [h]
  exact ⟨rfl, rfl⟩

/-- Witness for C4 on a freshly constructed client. -/
theorem c4_not_connected_witness :
    (NewClient "a" []).connection = none ∧
    (NewClient "a" []).Command ⟨true, []⟩ [108] =
      (Outcome.err Err.notConnected, NewClient "a" [], []) ∧
    (NewClient "a" []).Send ⟨true, []⟩ [108] =
      (Outcome.err Err.notConnected, NewClient "a" [], []) :=
  ⟨rfl, (c4_not_connected (NewClient "a" []) ⟨true, []⟩ [108] rfl).1,
    (c4_not_connected (NewClient "a" []) ⟨true, []⟩ [108] rfl).2⟩

/-- C8: `Close` resets the request id to `ResetID` in every state; with no
transport attached it is a no-op success, and with a transport attached whose
close succeeds it clears the reference after closing it. -/
theorem c8_close (c : Client) (closeOk : Bool) :
    ((c.Close closeOk).2.1.requestID = ResetID) ∧
    (c.connection = none →
      c.Close closeOk = (Outcome.ok (), { c with requestID := ResetID }, [])) ∧
    (∀ conn, c.connection = some conn → closeOk = true →
      c.Close closeOk =
        (Outcome.ok (), { c with requestID := ResetID, connection := none },
          [NetEvent.close])) := by
  unfold Client.Close
  cases hc : c.connection with
  | none =>
    refine ⟨rfl, fun _ => rfl, fun conn hconn _ => ?_⟩
    cases hconn
  | some conn =>
    cases closeOk with
    | true =>
      refine ⟨rfl, fun hnone => ?_, fun conn2 hconn hT => rfl⟩
      cases hnone
    | false =>
      refine ⟨rfl, fun hnone => ?_, fun conn2 hconn hT => ?_⟩
      · cases hnone
      · cases hT

/-- Witness for C8: a connected client whose close succeeds, and a
disconnected one. -/
theorem c8_close_witness :
    ((NewClient "a" []).Close true =
      (Outcome.ok (), { NewClient "a" [] with requestID := ResetID }, [])) ∧
    ((Client.mk (some ⟨0⟩) 7 "a" 61695 10000000000 100).Close true =
      (Outcome.ok (),
        { Client.mk (some ⟨0⟩) 7 "a" 61695 10000000000 100 with
            requestID := ResetID, connection := none }, [NetEvent.close])) :=
  ⟨(c8_close (NewClient "a" []) true).2.1 rfl,
    (c8_close (Client.mk (some ⟨0⟩) 7 "a" 61695 10000000000 100) true).2.2 ⟨0⟩ rfl rfl⟩

/-- A client with a transport attached, `requestID = 1` and the default
configuration. -/
def connClient : Client :=
  { connection := some ⟨0⟩, requestID := 1, address := "a", port := 61695,
    timeout := 10000000000, cap := 100 }

/-- C3 counterexample: a `Command` exchange whose write succeeds (the write
and the read attempt appear in the transport trace) but whose response read
fails leaves `requestID` unchanged — the counter has NOT advanced, contrary
to the claim. -/
theorem c3_write_ok_read_fail_counterexample :
    (ExchEnv.mk true []).writeOk = true ∧
    (connClient.Command ⟨true, []⟩ [97]).2.2 =
      [NetEvent.write (connClient.createPacket [97] CommandPacket), NetEvent.read] ∧
    (connClient.Command ⟨true, []⟩ [97]).1 = Outcome.err Err.transport ∧
    (connClient.Command ⟨true, []⟩ [97]).2.1.requestID = connClient.requestID ∧
    (connClient.Command ⟨true, []⟩ [97]).2.1.requestID ≠
      (connClient.incrementRequestID).requestID := by decide

/-- C3 amended: `requestID` advances exactly once per fully successful
exchange. In `sendAndRecv` the increment happens only when the write and the
complete response read both succeed; after a successful write with a failed
read the counter is unchanged (it was never advanced, so there is nothing to
roll back). In `send` (the no-response path) the counter advances after a
successful write. -/
theorem c3_increment_per_successful_exchange (c : Client) (env : ExchEnv)
    (packet : List Nat) :
    (env.writeOk = true → (∃ r, parseRecv env.incoming = RecvResult.ok r) →
      (c.sendAndRecv env packet).2.1 = c.incrementRequestID) ∧
    (env.writeOk = true → (∀ r, parseRecv env.incoming ≠ RecvResult.ok r) →
      (c.sendAndRecv env packet).2.1 = c) ∧
    (env.writeOk = false → (c.sendAndRecv env packet).2.1 = c) ∧
    (env.writeOk = true → (c.send env packet).2.1 = c.incrementRequestID) := by
  unfold Client.sendAndRecv Client.send
  refine ⟨?_, ?_, ?_, ?_⟩
  · rintro hw ⟨r, hr⟩
    simp [hw, hr]
  · intro hw hr
    rcases hp : parseRecv env.incoming with r | _ | _
    · exact absurd hp (hr r)
    · simp [hw, hp]
    · simp [hw, hp]
  · intro hw
    simp [hw]
  · intro hw
    simp [hw]

/-- Witness for the amended C3: a failed read leaves the counter at 1, a
successful fire-and-forget write advances it to 2. -/
theorem c3_increment_per_successful_exchange_witness :
    (ExchEnv.mk true []).writeOk = true ∧
    (connClient.sendAndRecv ⟨true, []⟩ [97]).2.1 = connClient ∧
    (connClient.send ⟨true, []⟩ [97]).2.1 = connClient.incrementRequestID :=
  ⟨rfl,
    (c3_increment_per_successful_exchange connClient ⟨true, []⟩ [97]).2.1 rfl
      (by
        intro r h
        have hp : parseRecv (ExchEnv.mk true []).incoming = RecvResult.transportError := by
          decide
        rw [hp] at h
        cases h),
    (c3_increment_per_successful_exchange connClient ⟨true, []⟩ [97]).2.2.2 rfl⟩

/-- C7: when the attached transport's write succeeds and the reply decodes
with `RequestID = -1`, `Connect` fails with the authentication-failure error
(distinct from the transport and dial errors) and the transport stays
attached, so a second `Connect` needs no redial. -/
theorem c7_auth_failure_keeps_transport (c : Client) (conn : Conn) (env : ConnectEnv)
    (pwd : List Nat) (r : Response)
    (hconn : c.connection = some conn)
    (hw : env.exch.writeOk = true)
    (hp : parseRecv env.exch.incoming = RecvResult.ok r)
    (hr : r.requestID = -1) :
    (c.Connect env pwd).1 = Outcome.err Err.authFailed ∧
    (c.Connect env pwd).2.1.connection = some conn ∧
    Err.authFailed ≠ Err.transport ∧
    Err.authFailed ≠ Err.dialFailed := by
  unfold Client.Connect Client.authenticate Client.sendAndRecv
  rw [hconn]
  have hfp : r.requestID = FailurePacket := hr
  simp [hw, hp, hfp, incrementRequestID_connection, hconn]

/-- Witness for C7 at a concrete auth-failure reply. -/
theorem c7_auth_failure_keeps_transport_witness :
    parseRecv [10, 0, 0, 0, 255, 255, 255, 255, 2, 0, 0, 0, 0, 0] =
      RecvResult.ok { requestID := -1, ty := 2, body := [] } ∧
    (connClient.Connect ⟨none, true, [10, 0, 0, 0, 255, 255, 255, 255, 2, 0, 0, 0, 0, 0]⟩
        [112]).1 = Outcome.err Err.authFailed ∧
    (connClient.Connect ⟨none, true, [10, 0, 0, 0, 255, 255, 255, 255, 2, 0, 0, 0, 0, 0]⟩
        [112]).2.1.connection = some ⟨0⟩ :=
  ⟨by decide,
    (c7_auth_failure_keeps_transport connClient ⟨0⟩
      ⟨none, true, [10, 0, 0, 0, 255, 255, 255, 255, 2, 0, 0, 0, 0, 0]⟩ [112]
      { requestID := -1, ty := 2, body := [] } rfl rfl (by decide) rfl).1,
    (c7_auth_failure_keeps_transport connClient ⟨0⟩
      ⟨none, true, [10, 0, 0, 0, 255, 255, 255, 255, 2, 0, 0, 0, 0, 0]⟩ [112]
      { requestID := -1, ty := 2, body := [] } rfl rfl (by decide) rfl).2.1⟩

/-- C2: in the `part_004` revision, `createPacket` rejects any body for which
`len(body) + 10` exceeds the signed 32-bit maximum with the integer-overflow
error, before any packet bytes are constructed. -/
theorem c2_createPacket_overflow (requestID : Int) (body : List Nat) (packetType : Int)
    (h : 2147483647 < body.length + 10) :
    P4.createPacket requestID body packetType = Except.error Err.intOverflow := by
  unfold P4.createPacket P4.safeIntConversion
  have hc : ((body.length : Int) + (PacketRequestSize : Int) > 2147483647) := by
    unfold PacketRequestSize
    push_cast
    omega
  rw [if_pos (Or.inl hc)]

/-- Witness for C2 with a body of `2^31` zero bytes. -/
theorem c2_createPacket_overflow_witness :
    2147483647 < (List.replicate 2147483648 (0 : Nat)).length + 10 ∧
    P4.createPacket 1 (List.replicate 2147483648 (0 : Nat)) 2 =
      Except.error Err.intOverflow :=
  ⟨by rw [List.length_replicate]; norm_num,
    c2_createPacket_overflow 1 (List.replicate 2147483648 (0 : Nat)) 2
      (by rw [List.length_replicate]; norm_num)⟩

/-- A client sitting at `requestID = cap = MaxInt32`, reachable with
`WithCap(math.MaxInt32)` after `MaxInt32 - 1` successful sends. -/
def cexMaxClient : Client :=
  { connection := none, requestID := 2147483647, address := "a", port := 61695,
    timeout := 10000000000, cap := 2147483647 }

/-- C6 counterexample: with `requestID = cap = MaxInt32` (which is inside
`[ResetID, cap]`), the int32 increment wraps to `-2^31`, which is not greater
than `cap`, so the counter is NOT reset to `ResetID`: a single increment at
`requestID == cap` does not yield `ResetID`. -/
theorem c6_wrap_at_maxint_counterexample :
    ResetID ≤ cexMaxClient.requestID ∧
    cexMaxClient.requestID = cexMaxClient.cap ∧
    (cexMaxClient.incrementRequestID).requestID = -2147483648 ∧
    (cexMaxClient.incrementRequestID).requestID ≠ ResetID := by decide

theorem incr_no_reset (c : Client) (h1 : 1 ≤ c.requestID) (h2 : c.requestID + 1 ≤ c.cap)
    (h3 : c.cap ≤ 2147483647) :
    c.incrementRequestID = { c with requestID := c.requestID + 1 } := by
  unfold Client.incrementRequestID
  rw [wrap32_eq_self (by omega) (by omega)]
  rw [if_neg (by omega)]

theorem incr_reset (c : Client) (h1 : 1 ≤ c.requestID) (hcap : c.requestID = c.cap)
    (h3 : c.cap ≤ 2147483646) :
    c.incrementRequestID = { c with requestID := ResetID } := by
  unfold Client.incrementRequestID
  rw [wrap32_eq_self (by omega) (by omega)]
  rw [if_pos (by omega)]

theorem iterate_incr_from (n : Nat) :
    ∀ c : Client, 1 ≤ c.requestID → c.requestID + n = c.cap → c.cap ≤ 2147483646 →
    (Nat.iterate Client.incrementRequestID (n + 1) c).requestID = ResetID := by
  induction n with
  | zero =>
    intro c h1 h2 h3
    show (Client.incrementRequestID c).requestID = ResetID
    rw [incr_reset c h1 (by omega) h3]
  | succ n ih =>
    intro c h1 h2 h3
    show (Nat.iterate Client.incrementRequestID (n + 1)
      (Client.incrementRequestID c)).requestID = ResetID
    rw [incr_no_reset c h1 (by omega) (by omega)]
    refine ih { c with requestID := c.requestID + 1 } ?_ ?_ ?_
    · show (1 : Int) ≤ c.requestID + 1
      omega
    · show c.requestID + 1 + (n : Int) = c.cap
      omega
    · show c.cap ≤ 2147483646
      exact h3

/-- C6 amended: the wrap-around law holds provided `cap ≤ MaxInt32 - 1`:
for every `requestID` in `[ResetID, cap]`, incrementing `cap - requestID + 1`
times returns the counter to `ResetID`, and a single increment at
`requestID == cap` yields `ResetID`. At `cap = MaxInt32` the int32 increment
itself wraps and the law fails. -/
theorem c6_wraparound_amended (c : Client)
    (h1 : ResetID ≤ c.requestID) (h2 : c.requestID ≤ c.cap) (h3 : c.cap ≤ 2147483646) :
    (Nat.iterate Client.incrementRequestID
        ((c.cap - c.requestID + 1).toNat) c).requestID = ResetID ∧
    (c.requestID = c.cap → (c.incrementRequestID).requestID = ResetID) := by
  have hr1 : (1 : Int) ≤ c.requestID := h1
  constructor
  · have hn : (c.cap - c.requestID + 1).toNat = (c.cap - c.requestID).toNat + 1 := by omega
    rw [hn]
    exact iterate_incr_from (c.cap - c.requestID).toNat c hr1 (by omega) h3
  · intro heq
    rw [incr_reset c hr1 heq h3]

/-- A client at `requestID = 100` with the default cap 100. -/
def cexCapClient : Client :=
  { connection := none, requestID := 100, address := "a", port := 61695,
    timeout := 10000000000, cap := 100 }

/-- Witness for the amended C6 at the default cap 100 and the scenario
`requestID = 100`: one increment brings the counter from 100 back to 1. -/
theorem c6_wraparound_amended_witness :
    ResetID ≤ cexCapClient.requestID ∧ cexCapClient.requestID ≤ cexCapClient.cap ∧
    cexCapClient.cap ≤ 2147483646 ∧
    (Nat.iterate Client.incrementRequestID
        ((cexCapClient.cap - cexCapClient.requestID + 1).toNat) cexCapClient).requestID
      = ResetID ∧
    (cexCapClient.incrementRequestID).requestID = ResetID :=
  ⟨by decide, by decide, by decide,
    (c6_wraparound_amended cexCapClient (by decide) (by decide) (by decide)).1,
    (c6_wraparound_amended cexCapClient (by decide) (by decide) (by decide)).2 rfl⟩

/-- C10 counterexample: the 12-byte header with `Size = -2^31` (bytes
`00 00 00 80`) has `Size < 10`, yet the int32 subtraction `Size - 8` wraps to
the large positive `2147483640`, so `make` receives a non-negative length and
the short payload read returns an error — not a runtime panic as the claim
states for every `Size < 10`. -/
theorem c10_wrap_size_counterexample :
    readI32 (([0, 0, 0, 128, 0, 0, 0, 0, 0, 0, 0, 0] : List Nat).take 4) = -2147483648 ∧
    wrap32 (readI32 (([0, 0, 0, 128, 0, 0, 0, 0, 0, 0, 0, 0] : List Nat).take 4) - 8) =
      2147483640 ∧
    parseRecv [0, 0, 0, 128, 0, 0, 0, 0, 0, 0, 0, 0] = RecvResult.transportError ∧
    RecvResult.transportError ≠ RecvResult.panicked := by decide

/-- C10 amended: the parsing path is indeed not total, with the panic region
adjusted for int32 wrap-around and read order: a header with
`-2^31 + 8 ≤ Size ≤ 7` always panics (negative `make` length), `Size = 8`
always panics (the padding-strip slice `payload[:len(payload)-2]` is out of
range), and `Size = 9` panics whenever at least one payload byte is
available. For `Size < -2^31 + 8` the subtraction `Size - 8` wraps to a large
positive length and a short read yields an error return instead, and for
`Size = 9` with no payload byte available the payload read fails first. -/
theorem c10_malformed_size_panics (size reqid typ : Int) (rest : List Nat)
    (h : (-2147483640 ≤ size ∧ size ≤ 7) ∨ size = 8 ∨ (size = 9 ∧ 1 ≤ rest.length)) :
    parseRecv (int32LE size ++ (int32LE reqid ++ (int32LE typ ++ rest))) =
      RecvResult.panicked := by
  have hs1 : (-2147483648 : Int) ≤ size := by
    rcases h with ⟨ha, hb⟩ | hc | ⟨hd, he⟩ <;> omega
  have hs2 : size < 2147483648 := by
    rcases h with ⟨ha, hb⟩ | hc | ⟨hd, he⟩ <;> omega
  rw [parseRecv_header size reqid typ rest hs1 hs2]
  rcases h with ⟨ha, hb⟩ | hc | ⟨hd, he⟩
  · rw [wrap32_eq_self (by omega) (by omega)]
    rw [if_pos (by omega)]
  · subst hc
    rw [show ((8 : Int) - 8) = 0 by norm_num, wrap32_eq_self (by norm_num) (by norm_num)]
    norm_num
  · subst hd
    rw [show ((9 : Int) - 8) = 1 by norm_num, wrap32_eq_self (by norm_num) (by norm_num),
      Int.toNat_one]
    rw [if_neg (by norm_num)]
    rw [if_neg (by omega)]
    rw [if_pos (by norm_num)]

/-- Witness for the amended C10: `Size = 8` with an empty remainder panics. -/
theorem c10_malformed_size_panics_witness :
    parseRecv (int32LE 8 ++ (int32LE 0 ++ (int32LE 0 ++ []))) = RecvResult.panicked ∧
    parseRecv (int32LE 9 ++ (int32LE 0 ++ (int32LE 0 ++ [0]))) = RecvResult.panicked ∧
    parseRecv (int32LE 7 ++ (int32LE 0 ++ (int32LE 0 ++ []))) = RecvResult.panicked :=
  ⟨c10_malformed_size_panics 8 0 0 [] (Or.inr (Or.inl rfl)),
    c10_malformed_size_panics 9 0 0 [0] (Or.inr (Or.inr ⟨rfl, by norm_num⟩)),
    c10_malformed_size_panics 7 0 0 [] (Or.inl ⟨by norm_num, by norm_num⟩)⟩

/-! ## Request-id invariant over operation sequences -/

theorem incr_inv (c : Client) (h1 : 1 ≤ c.requestID) (h2 : c.requestID ≤ c.cap)
    (h3 : c.cap ≤ 2147483646) :
    ResetID ≤ (c.incrementRequestID).requestID ∧
    (c.incrementRequestID).requestID ≤ (c.incrementRequestID).cap := by
  unfold Client.incrementRequestID
  rw [wrap32_eq_self (by omega) (by omega)]
  by_cases hgt : c.requestID + 1 > c.cap
  · rw [if_pos hgt]
    constructor
    · show ResetID ≤ ResetID
      exact le_refl ResetID
    · show ResetID ≤ c.cap
      show (1 : Int) ≤ c.cap
      omega
  · rw [if_neg hgt]
    constructor
    · show (1 : Int) ≤ c.requestID + 1
      omega
    · show c.requestID + 1 ≤ c.cap
      omega

theorem sendAndRecv_state (c : Client) (env : ExchEnv) (p : List Nat) :
    (c.sendAndRecv env p).2.1 = c ∨ (c.sendAndRecv env p).2.1 = c.incrementRequestID := by
  unfold Client.sendAndRecv
  by_cases hw : env.writeOk
  · rcases hp : parseRecv env.incoming with r | _ | _ <;> simp [hw, hp]
  · simp [hw]

theorem send_state (c : Client) (env : ExchEnv) (p : List Nat) :
    (c.send env p).2.1 = c ∨ (c.send env p).2.1 = c.incrementRequestID := by
  unfold Client.send
  by_cases hw : env.writeOk
  · simp [hw]
  · simp [hw]

theorem authenticate_state (c : Client) (env : ExchEnv) (pwd : List Nat) :
    (c.authenticate env pwd).2.1 = c ∨ (c.authenticate env pwd).2.1 = c.incrementRequestID := by
  have hstate := sendAndRecv_state c env (c.createPacket pwd AuthPacket)
  unfold Client.authenticate
  rcases hs : c.sendAndRecv env (c.createPacket pwd AuthPacket) with ⟨o, c1, tr⟩
  rw [hs] at hstate
  simp only at hstate
  cases o with
  | ok r =>
    by_cases hf : r.requestID = FailurePacket
    · simpa [hf] using hstate
    · simpa [hf] using hstate
  | err e => simpa using hstate
  | panicked => simpa using hstate

theorem command_state (c : Client) (env : ExchEnv) (cmd : List Nat) :
    (c.Command env cmd).2.1 = c ∨ (c.Command env cmd).2.1 = c.incrementRequestID := by
  have hstate := sendAndRecv_state c env (c.createPacket cmd CommandPacket)
  unfold Client.Command
  rcases hc : c.connection with _ | conn
  · exact Or.inl rfl
  · rcases hs : c.sendAndRecv env (c.createPacket cmd CommandPacket) with ⟨o, c1, tr⟩
    rw [hs] at hstate
    simp only at hstate
    cases o with
    | ok r => simpa using hstate
    | err e => simpa using hstate
    | panicked => simpa using hstate

theorem sendcmd_state (c : Client) (env : ExchEnv) (cmd : List Nat) :
    (c.Send env cmd).2.1 = c ∨ (c.Send env cmd).2.1 = c.incrementRequestID := by
  unfold Client.Send
  rcases hc : c.connection with _ | conn
  · exact Or.inl rfl
  · exact send_state c env (c.createPacket cmd CommandPacket)

/-- After any single public operation, the request id is unchanged, reset to
`ResetID`, or advanced by `incrementRequestID` on a client with the same id
and cap; the cap never changes. -/
theorem step_inv (c : Client) (op : Op) (h1 : ResetID ≤ c.requestID)
    (h2 : c.requestID ≤ c.cap) (h3 : c.cap ≤ 2147483646) :
    ResetID ≤ (Client.step c op).requestID ∧
    (Client.step c op).requestID ≤ (Client.step c op).cap ∧
    (Client.step c op).cap = c.cap := by
  have h1i : (1 : Int) ≤ c.requestID := h1
  have key : ((Client.step c op).requestID = c.requestID ∧ (Client.step c op).cap = c.cap) ∨
      ((Client.step c op).requestID = ResetID ∧ (Client.step c op).cap = c.cap) ∨
      (∃ c2 : Client, c2.requestID = c.requestID ∧ c2.cap = c.cap ∧
        Client.step c op = c2.incrementRequestID) := by
    cases op with
    | connect env pwd =>
      have hs : Client.step c (Op.connect env pwd) = (c.Connect env pwd).2.1 := rfl
      rw [hs]
      unfold Client.Connect
      split
      · rcases authenticate_state c env.exch pwd with h | h
        · rw [h]
          exact Or.inl ⟨rfl, rfl⟩
        · exact Or.inr (Or.inr ⟨c, rfl, rfl, h⟩)
      · split
        · exact Or.inl ⟨rfl, rfl⟩
        · rename_i conn2 heq2
          rcases authenticate_state { c with connection := some conn2 } env.exch pwd with h | h
          · rw [h]
            exact Or.inl ⟨rfl, rfl⟩
          · exact Or.inr (Or.inr ⟨{ c with connection := some conn2 }, rfl, rfl, h⟩)
    | command env cmd =>
      have hs : Client.step c (Op.command env cmd) = (c.Command env cmd).2.1 := rfl
      rw [hs]
      rcases command_state c env cmd with h | h
      · rw [h]
        exact Or.inl ⟨rfl, rfl⟩
      · exact Or.inr (Or.inr ⟨c, rfl, rfl, h⟩)
    | send env cmd =>
      have hs : Client.step c (Op.send env cmd) = (c.Send env cmd).2.1 := rfl
      rw [hs]
      rcases sendcmd_state c env cmd with h | h
      · rw [h]
        exact Or.inl ⟨rfl, rfl⟩
      · exact Or.inr (Or.inr ⟨c, rfl, rfl, h⟩)
    | close ok =>
      have hs : Client.step c (Op.close ok) = (c.Close ok).2.1 := rfl
      rw [hs]
      unfold Client.Close
      split
      · exact Or.inr (Or.inl ⟨rfl, rfl⟩)
      · split
        · exact Or.inr (Or.inl ⟨rfl, rfl⟩)
        · exact Or.inr (Or.inl ⟨rfl, rfl⟩)
  rcases key with ⟨hr, hcap⟩ | ⟨hr, hcap⟩ | ⟨c2, hr2, hcap2, he⟩
  · rw [hr, hcap]
    exact ⟨h1, h2, rfl⟩
  · rw [hr, hcap]
    refine ⟨le_refl ResetID, ?_, rfl⟩
    show (1 : Int) ≤ c.cap
    omega
  · have hinc := incr_inv c2 (by rw [hr2]; exact h1i) (by rw [hr2, hcap2]; exact h2)
      (by rw [hcap2]; exact h3)
    rw [he]
    refine ⟨hinc.1, hinc.2, ?_⟩
    rw [incrementRequestID_cap, hcap2]

theorem runOps_inv (ops : List Op) :
    ∀ c : Client, ResetID ≤ c.requestID → c.requestID ≤ c.cap → c.cap ≤ 2147483646 →
    ResetID ≤ (runOps c ops).requestID ∧
    (runOps c ops).requestID ≤ (runOps c ops).cap ∧ (runOps c ops).cap = c.cap := by
  induction ops with
  | nil =>
    intro c h1 h2 h3
    exact ⟨h1, h2, rfl⟩
  | cons op t ih =>
    intro c h1 h2 h3
    have hs : runOps c (op :: t) = runOps (Client.step c op) t := rfl
    rw [hs]
    obtain ⟨a, b, d⟩ := step_inv c op h1 h2 h3
    obtain ⟨x, y, z⟩ := ih (Client.step c op) a b (by rw [d]; exact h3)
    exact ⟨x, y, by rw [z, d]⟩

theorem foldl_applyOption_requestID (opts : List ClientOption) :
    ∀ c : Client, (opts.foldl applyOption c).requestID = c.requestID := by
  induction opts with
  | nil => intro c; rfl
  | cons o t ih =>
    intro c
    rw [List.foldl_cons, ih]
    cases o <;> rfl

theorem NewClient_requestID (addr : String) (opts : List ClientOption) :
    (NewClient addr opts).requestID = ResetID := by
  unfold NewClient
  rw [foldl_applyOption_requestID]

/-- C5 amended: for every client built by `NewClient` and every sequence of
public operations, the invariant `ResetID ≤ requestID ≤ cap` holds between
operations provided `ResetID ≤ cap` AND `cap ≤ MaxInt32 - 1`; at
`cap = MaxInt32` the int32 increment wraps `requestID` to `-2^31`. -/
theorem c5_invariant_amended (addr : String) (opts : List ClientOption) (ops : List Op)
    (hcap1 : ResetID ≤ (NewClient addr opts).cap)
    (hcap2 : (NewClient addr opts).cap ≤ 2147483646) :
    ResetID ≤ (runOps (NewClient addr opts) ops).requestID ∧
    (runOps (NewClient addr opts) ops).requestID ≤
      (runOps (NewClient addr opts) ops).cap := by
  have hrid : (NewClient addr opts).requestID = ResetID := NewClient_requestID addr opts
  obtain ⟨a, b, _⟩ := runOps_inv ops (NewClient addr opts) hrid.ge
    (by rw [hrid]; exact hcap1) hcap2
  exact ⟨a, b⟩

/-- Witness for the amended C5 on a default client and a short sequence. -/
theorem c5_invariant_amended_witness :
    ResetID ≤ (NewClient "a" []).cap ∧ (NewClient "a" []).cap ≤ 2147483646 ∧
    (ResetID ≤ (runOps (NewClient "a" []) [Op.close true]).requestID ∧
     (runOps (NewClient "a" []) [Op.close true]).requestID ≤
       (runOps (NewClient "a" []) [Op.close true]).cap) :=
  ⟨by decide, by decide, c5_invariant_amended "a" [] [Op.close true] (by decide) (by decide)⟩

/-- A successful exchange environment: the write succeeds and the server
replies with an empty-body type-2 response carrying request id 1. -/
def okEnv : ExchEnv := ⟨true, [10, 0, 0, 0, 1, 0, 0, 0, 2, 0, 0, 0, 0, 0]⟩

theorem parse_okEnv : parseRecv okEnv.incoming = RecvResult.ok ⟨1, 2, []⟩ := by decide

theorem step_command_ok (c : Client) (conn : Conn) (hc : c.connection = some conn) :
    Client.step c (Op.command okEnv []) = c.incrementRequestID := by
  show (c.Command okEnv []).2.1 = c.incrementRequestID
  unfold Client.Command Client.sendAndRecv
  rw [hc, parse_okEnv]
  rfl

theorem run_replicate_command (n : Nat) :
    ∀ c : Client, ∀ conn : Conn, c.connection = some conn → 1 ≤ c.requestID →
    c.requestID + (n : Int) ≤ c.cap → c.cap ≤ 2147483647 →
    runOps c (List.replicate n (Op.command okEnv [])) =
      { c with requestID := c.requestID + (n : Int) } := by
  induction n with
  | zero =>
    intro c conn hc h1 h2 h3
    show c = { c with requestID := c.requestID + ((0 : Nat) : Int) }
    have hz : c.requestID + ((0 : Nat) : Int) = c.requestID := by push_cast; ring
    rw [hz]
  | succ n ih =>
    intro c conn hc h1 h2 h3
    have h2n : c.requestID + (n : Int) + 1 ≤ c.cap := by push_cast at h2; omega
    have hs : runOps c (List.replicate (n + 1) (Op.command okEnv [])) =
        runOps (Client.step c (Op.command okEnv []))
          (List.replicate n (Op.command okEnv [])) := rfl
    rw [hs, step_command_ok c conn hc, incr_no_reset c h1 (by omega) (by omega)]
    rw [ih { c with requestID := c.requestID + 1 } conn hc
      (by show (1 : Int) ≤ c.requestID + 1; omega)
      (by show c.requestID + 1 + (n : Int) ≤ c.cap; omega)
      (by show c.cap ≤ 2147483647; exact h3)]
    have harith : c.requestID + 1 + (n : Int) = c.requestID + ((n + 1 : Nat) : Int) := by
      push_cast
      ring
    show { c with requestID := c.requestID + 1 + (n : Int) } =
      { c with requestID := c.requestID + ((n + 1 : Nat) : Int) }
    rw [harith]

/-- The operation sequence of the C5 counterexample: one successful
`Connect`, then `2^31 - 2` successful `Command` exchanges. -/
def badOps : List Op :=
  Op.connect ⟨some ⟨0⟩, okEnv⟩ [] :: List.replicate 2147483646 (Op.command okEnv [])

/-- C5 counterexample: with the legal option `WithCap(MaxInt32)` (so
`cap ≥ ResetID` holds) a session that performs one successful `Connect` and
then `2^31 - 2` successful commands drives `requestID` to `MaxInt32 = cap`,
and the final increment wraps the int32 counter to `-2^31`: the invariant
`ResetID ≤ requestID` is violated, and the counter is negative. -/
theorem c5_requestid_invariant_counterexample :
    ResetID ≤ (NewClient "a" [ClientOption.withCap 2147483647]).cap ∧
    (runOps (NewClient "a" [ClientOption.withCap 2147483647]) badOps).requestID =
      -2147483648 ∧
    ¬ (ResetID ≤ (runOps (NewClient "a" [ClientOption.withCap 2147483647]) badOps).requestID ∧
       (runOps (NewClient "a" [ClientOption.withCap 2147483647]) badOps).requestID ≤
         (runOps (NewClient "a" [ClientOption.withCap 2147483647]) badOps).cap) := by
  have hconnect : Client.step (NewClient "a" [ClientOption.withCap 2147483647])
      (Op.connect ⟨some ⟨0⟩, okEnv⟩ []) =
      { connection := some ⟨0⟩, requestID := 2, address := "a", port := 61695,
        timeout := 10000000000, cap := 2147483647 } := by decide
  have hstep1 : runOps (NewClient "a" [ClientOption.withCap 2147483647]) badOps =
      runOps (Client.step (NewClient "a" [ClientOption.withCap 2147483647])
        (Op.connect ⟨some ⟨0⟩, okEnv⟩ []))
        (List.replicate 2147483646 (Op.command okEnv [])) := by
    unfold badOps runOps
    rw [List.foldl_cons]
  have hsplit : List.replicate 2147483646 (Op.command okEnv []) =
      List.replicate 2147483645 (Op.command okEnv []) ++ [Op.command okEnv []] := by
    rw [show (2147483646 : Nat) = 2147483645 + 1 by norm_num, List.replicate_succ']
  have happend : ∀ c : Client,
      runOps c (List.replicate 2147483645 (Op.command okEnv []) ++ [Op.command okEnv []]) =
      runOps (runOps c (List.replicate 2147483645 (Op.command okEnv [])))
        [Op.command okEnv []] := by
    intro c
    unfold runOps
    rw [List.foldl_append]
  have hmid := run_replicate_command 2147483645
    { connection := some ⟨0⟩, requestID := 2, address := "a", port := 61695,
      timeout := 10000000000, cap := 2147483647 } ⟨0⟩ rfl
    (by norm_num)
    (by norm_num)
    (by norm_num)
  have hridval : ((2 : Int) + ((2147483645 : Nat) : Int)) = 2147483647 := by
    norm_num
  have hfinalstep : Client.step
      { connection := some ⟨0⟩, requestID := 2147483647, address := "a", port := 61695,
        timeout := 10000000000, cap := 2147483647 } (Op.command okEnv []) =
      { connection := some ⟨0⟩, requestID := -2147483648, address := "a", port := 61695,
        timeout := 10000000000, cap := 2147483647 } := by decide
  have hrun : runOps (NewClient "a" [ClientOption.withCap 2147483647]) badOps =
      { connection := some ⟨0⟩, requestID := -2147483648, address := "a", port := 61695,
        timeout := 10000000000, cap := 2147483647 } := by
    rw [hstep1, hconnect, hsplit, happend, hmid]
    show Client.step
      { connection := some ⟨0⟩, requestID := (2 : Int) + ((2147483645 : Nat) : Int),
        address := "a", port := 61695, timeout := 10000000000, cap := 2147483647 }
      (Op.command okEnv []) = _
    rw [hridval]
    exact hfinalstep
  refine ⟨by decide, by rw [hrun], ?_⟩
  rw [hrun]
  intro hinv
  exact absurd hinv.1 (by decide)
